import Mathlib

set_option linter.unusedVariables false
set_option maxRecDepth 100000

/-!
Shallow embedding of the content-filtering control plane
(`src/ai_classifier.py`, `src/ai_routes.py`, `src/app.py`).

External collaborators (the `tldextract` library, the Python `re`/`html`
based text extraction inside `_textify`, the network fetch in
`_fetch_html`, and the wall clock / `time.localtime`) are modelled as
explicit oracle parameters; all repository logic is translated directly
from the source.
-/

namespace Gschool

/-! ### String helpers

Python's substring test `pat in t` is modelled by `infixOf` / `strContains`
on the character lists of the strings. -/

/-- `infixOf pat l` is true when `pat` occurs as a contiguous substring of
`l` (Python `pat in t` on strings). -/
def infixOf (pat : List Char) : List Char → Bool
  | [] => pat.isEmpty
  | c :: tl => pat.isPrefixOf (c :: tl) || infixOf pat tl

/-- `strContains t pat` models Python `pat in t`. -/
def strContains (t pat : String) : Bool :=
  infixOf pat.data t.data

/-- ASCII lowercase of one character (Python `str.lower` restricted to
ASCII, which covers every string occurring in the tables and endpoints;
full Unicode case mapping is external library behaviour). -/
def lowerChar (c : Char) : Char :=
  if 'A' ≤ c ∧ c ≤ 'Z' then Char.ofNat (c.toNat + 32) else c

/-- Python `s.lower()` (ASCII model). -/
def strToLower (s : String) : String :=
  ⟨s.data.map lowerChar⟩

/-- Python `s.startswith(pat)`. -/
def startsWithStr (t pat : String) : Bool :=
  pat.data.isPrefixOf t.data

/-- Join nonempty components with `"."`, as Python
`".".join([p for p in parts if p])`. -/
def joinDots (parts : List String) : String :=
  String.intercalate "." (parts.filter (fun p => p ≠ ""))

/-- Modelled from the spec: the "domain ending in `.edu`" test that the
spec attributes to the education boost, used to compare the spec's words
with the source's substring test. -/
def strEndsWith (t pat : String) : Bool :=
  pat.data.isSuffixOf t.data

end Gschool

namespace Classifier

open Gschool

/-- The fixed category list of `src/ai_classifier.py` (`CATEGORIES`),
in source order. -/
def CATEGORIES : List String := [
  "Advertising",
  "AI Chatbots & Tools",
  "App Stores & System Updates",
  "Blogs",
  "Built-in Apps",
  "Collaboration",
  "Drugs & Alcohol",
  "Ecommerce",
  "Entertainment",
  "Gambling",
  "Games",
  "General / Education",
  "Health & Medicine",
  "Illegal, Malicious, or Hacking",
  "Religion",
  "Sexual Content",
  "Social Media",
  "Sports & Hobbies",
  "Streaming Services",
  "Weapons",
  "Uncategorized",
  "Allow only",
  "Global Block All"]

/-- The keyword table of `src/ai_classifier.py` (`KEYWORDS`), an
association list in the dict's insertion order. -/
def KEYWORDS : List (String × List String) := [
  ("AI Chatbots & Tools", ["chatgpt","openai","bard","claude","copilot","perplexity.ai","writesonic","midjourney"]),
  ("Social Media", ["tiktok","instagram","snapchat","facebook","x.com","twitter","reddit","discord","tumblr","be.real"]),
  ("Games", ["roblox","fortnite","minecraft","epicgames","leagueoflegends","steam","twitch","itch.io","riot games"]),
  ("Ecommerce", ["amazon","ebay","walmart","bestbuy","aliexpress","etsy","shopify","mercado libre","target.com"]),
  ("Streaming Services", ["netflix","spotify","hulu","vimeo","twitch","soundcloud","peacocktv","max.com","disneyplus"]),
  ("Sexual Content", ["porn","xxx","xvideos","redtube","xnxx","brazzers","onlyfans","camgirl","pornhub"]),
  ("Gambling", ["casino","sportsbook","bet","poker","slot","roulette","draftkings","fanduel"]),
  ("Illegal, Malicious, or Hacking", ["warez","piratebay","crack download","keygen","free movies streaming","sql injection","ddos","cheat engine"]),
  ("Drugs & Alcohol", ["buy weed","vape","nicotine","delta-8","kratom","bong","vodka","whiskey","winery","brewery"]),
  ("Collaboration", ["gmail","outlook","office 365","onedrive","teams","slack","zoom","google docs","google drive","meet.google"]),
  ("General / Education", ["wikipedia","news","encyclopedia","khan academy","nasa.gov",".edu"]),
  ("Sports & Hobbies", ["espn","nba","nfl","mlb","nhl","cars","boats","aircraft"]),
  ("App Stores & System Updates", ["play.google","apps.apple","microsoft store","firmware update","drivers download"]),
  ("Advertising", ["ads.txt","adserver","doubleclick","adchoices","advertising"]),
  ("Blogs", ["wordpress","blogger","wattpad","joomla","drupal","medium"]),
  ("Health & Medicine", ["patient portal","glucose","fitbit","apple health","pharmacy","telehealth"]),
  ("Religion", ["church","synagogue","mosque","bible study","quran","sermon"]),
  ("Weapons", ["knife","guns","rifle","ammo","silencer","tactical"]),
  ("Entertainment", ["tv shows","movies","anime","cartoons","jokes","memes"]),
  ("Built-in Apps", ["calculator","camera","clock","files app"]),
  ("Allow only", ["canvas", "k12", "instructure.com"])]

/-- Result record of `classify` (`src/ai_classifier.py:111`).  The Python
float division is modelled exactly as a rational. -/
structure Result where
  category : String
  confidence : ℚ
  domain : String
  host : String
  deriving Repr, DecidableEq

/-- Output of the `tldextract.extract` library call (external collaborator,
modelled as an oracle `String → Extract`). -/
structure Extract where
  subdomain : String
  domain : String
  suffix : String
  deriving Repr, DecidableEq

/-- URL normalisation at the top of `classify`
(`src/ai_classifier.py:78-79`): prepend `https://` when no scheme. -/
def normUrl (url : String) : String :=
  if startsWithStr url "http://" || startsWithStr url "https://" then url
  else "https://" ++ url

/-- `domain = ".".join([p for p in [ext.domain, ext.suffix] if p])`
(`src/ai_classifier.py:81`), where `ext = tldextract.extract(url)` is taken
from the oracle `ex` at the normalised URL. -/
def domainOf (ex : String → Extract) (url : String) : String :=
  let e := ex (normUrl url)
  joinDots [e.domain, e.suffix]

/-- `host = ".".join(...)` over subdomain/domain/suffix
(`src/ai_classifier.py:82`). -/
def hostOf (ex : String → Extract) (url : String) : String :=
  let e := ex (normUrl url)
  joinDots [e.subdomain, e.domain, e.suffix]

/-- The `_textify` wrapper (`src/ai_classifier.py:65-72`): a falsy (empty)
input yields `""`; the regex/entity based text extraction itself is the
external Python `re`/`html` machinery, supplied as the oracle `t`. -/
def textify (t : String → String) (s : String) : String :=
  if s = "" then "" else t s

/-- The token list built by `classify` (`src/ai_classifier.py:84-87`):
lowercased url/host/domain, plus the extracted body text when nonempty.
The body comes from the supplied html when that is truthy (nonempty),
otherwise from the network fetch oracle `fetch` (`_fetch_html`). -/
def tokensOf (ex : String → Extract) (t : String → String)
    (fetch : String → String) (url : String) (html : Option String) :
    List String :=
  let u := normUrl url
  let body :=
    match html with
    | some h => if h = "" then textify t (fetch u) else textify t h
    | none => textify t (fetch u)
  [strToLower u, strToLower (hostOf ex url), strToLower (domainOf ex url)] ++
    (if body = "" then [] else [body])

/-- Per-category keyword score (`src/ai_classifier.py:89-95`): one point
for every (keyword, token) pair where the lowercased keyword occurs as a
substring of the token. -/
def keywordScore (tokens : List String) (cat : String) : Nat :=
  match KEYWORDS.lookup cat with
  | some kws =>
      (kws.map (fun kw => tokens.countP (fun tk => strContains tk (strToLower kw)))).sum
  | none => 0

/-- Final per-category score including the special-case boosts of
`src/ai_classifier.py:97-99` (`url` is the normalised URL and `domain` the
extracted registrable domain, both unlowered, exactly as in the source). -/
def scoresOf (tokens : List String) (url domain : String) (cat : String) :
    Nat :=
  keywordScore tokens cat
    + (if cat = "General / Education" &&
          (strContains domain "edu" || strContains domain ".edu")
       then 3 else 0)
    + (if cat = "Blogs" &&
          (strContains url "wp-login" || strContains url "/wp-content/")
       then 1 else 0)

/-- Python `max(scores, key=...)` over the insertion-ordered dict keys:
left fold keeping the first element attaining the maximum. -/
def maxByFirst (f : String → Nat) : List String → String
  | [] => ""
  | c :: rest => rest.foldl (fun a x => if f x > f a then x else a) c

/-- Winner selection (`src/ai_classifier.py:101-107`): "Allow only" wins
whenever its score is positive; otherwise the first maximal category, with
a zero maximum mapped to "Uncategorized". -/
def bestCat (f : String → Nat) : String :=
  if 0 < f "Allow only" then "Allow only"
  else
    let b := maxByFirst f CATEGORIES
    if f b = 0 then "Uncategorized" else b

/-- Sum of all category scores (`sum(scores.values())`). -/
def totalScore (f : String → Nat) : Nat :=
  (CATEGORIES.map f).sum

/-- `classify` (`src/ai_classifier.py:74-111`), parametric in the
`tldextract` oracle `ex`, the `_textify` core `t` and the `_fetch_html`
oracle `fetch`. -/
def classify (ex : String → Extract) (t : String → String)
    (fetch : String → String) (url : String) (html : Option String) :
    Result :=
  let u := normUrl url
  let domain := domainOf ex url
  let host := hostOf ex url
  let tokens := tokensOf ex t fetch url html
  let f := scoresOf tokens u domain
  let best := bestCat f
  let total := if totalScore f = 0 then 1 else totalScore f
  { category := best
    confidence := (f best : ℚ) / (total : ℚ)
    domain := domain
    host := host }

/-- The score table inside `classify`, exposed as a named function so the
theorems can speak about it. -/
def scoresFn (ex : String → Extract) (t : String → String)
    (fetch : String → String) (url : String) (html : Option String) :
    String → Nat :=
  scoresOf (tokensOf ex t fetch url html) (normUrl url) (domainOf ex url)

end Classifier

namespace Routes

open Gschool Classifier

/-- A stored schedule (`src/ai_routes.py:49-58`).  A schedule cell that is
absent, unparseable JSON, or a falsy value is modelled as `none` where it
is stored; any truthy non-dict JSON value behaves in `_is_schedule_active`
exactly like a dict with a falsy `enabled`, so `Sched` covers the truthy
case.  Absent optional fields are `none` / `false`. -/
structure Sched where
  enabled : Bool
  start : Option String
  stop : Option String
  weekdays_only : Bool
  deriving Repr, DecidableEq

/-- The fields of `time.localtime(now_ts)` that `_is_schedule_active`
reads (`tm_wday`, `tm_hour`, `tm_min`); the C `localtime` conversion is an
external collaborator, so the struct itself is the model's timestamp. -/
structure LocalTime where
  wday : Nat
  hour : Nat
  minute : Nat
  deriving Repr, DecidableEq

/-- Decimal integer parse modelling Python `int(str)` (raising parses are
`none`; exotic forms such as embedded underscores or surrounding
whitespace, accepted by Python, do not occur in HH:MM data). -/
def digitsToNat : List Char → Option Nat
  | [] => none
  | cs =>
    if cs.all Char.isDigit then
      some (cs.foldl (fun acc c => acc * 10 + (c.toNat - '0'.toNat)) 0)
    else none

/-- Python `int(...)` on a trimmed decimal string with optional sign. -/
def intOfStr (s : String) : Option Int :=
  match s.data with
  | '-' :: cs => (digitsToNat cs).map (fun n => -(n : Int))
  | '+' :: cs => (digitsToNat cs).map (fun n => (n : Int))
  | cs => (digitsToNat cs).map (fun n => (n : Int))

/-- Python `v.split(":", 1)`: the text before the first colon, and the
remainder after it when a colon exists. -/
def splitFirstColon (v : String) : String × Option String :=
  go [] v.data
where
  go (acc : List Char) : List Char → String × Option String
    | [] => (⟨acc.reverse⟩, none)
    | c :: tl =>
      if c = ':' then (⟨acc.reverse⟩, some ⟨tl⟩) else go (c :: acc) tl

/-- `_parse_hhmm` (`src/ai_routes.py:73-84`): parse `"HH:MM"` with
clamping to `[0,23]×[0,59]`; a falsy value or any parse error yields the
defaults. -/
def parse_hhmm (val : Option String) (dh dm : Nat) : Nat × Nat :=
  match val with
  | none => (dh, dm)
  | some v =>
    if v = "" then (dh, dm)
    else
      let (p0, p1) := splitFirstColon v
      match intOfStr p0 with
      | none => (dh, dm)
      | some h =>
        let m? : Option Int :=
          match p1 with
          | none => some 0
          | some p => intOfStr p
        match m? with
        | none => (dh, dm)
        | some m => ((max 0 (min 23 h)).toNat, (max 0 (min 59 m)).toNat)

/-- Parsed start of a schedule, in minutes of the day (default `00:00`). -/
def startMinutes (s : Sched) : Nat :=
  let p := parse_hhmm s.start 0 0
  p.1 * 60 + p.2

/-- Parsed end of a schedule, in minutes of the day (default `23:59`). -/
def endMinutes (s : Sched) : Nat :=
  let p := parse_hhmm s.stop 23 59
  p.1 * 60 + p.2

/-- Minute of the day of a local time. -/
def curMinutes (lt : LocalTime) : Nat :=
  lt.hour * 60 + lt.minute

/-- `_is_schedule_active` (`src/ai_routes.py:49-102`). -/
def is_schedule_active (s : Sched) (lt : LocalTime) : Bool :=
  if !s.enabled then false
  else if s.weekdays_only && decide (lt.wday ≥ 5) then false
  else
    let st := startMinutes s
    let en := endMinutes s
    let cur := curMinutes lt
    if st = en then false
    else if st < en then decide (st ≤ cur) && decide (cur < en)
    else !(decide (en ≤ cur) && decide (cur < st))

/-- One row of the `categories` table (`blocked`, `block_url`). -/
structure CatRow where
  blocked : Bool
  block_url : Option String
  deriving Repr, DecidableEq

/-- Database state read by the classify endpoint (`src/ai_routes.py`):
the `overrides['allowlist']` list, the `categories` rows, the
`category_schedules` rows (truthy parsed schedules only, see `Sched`), and
the `blocked_redirect` setting (`none` when unset). -/
structure AIState where
  allowlist : List String
  categories : List (String × CatRow)
  schedules : List (String × Sched)
  blocked_redirect : Option String
  deriving Repr, DecidableEq

/-- The default block redirect (`src/ai_routes.py:225-228`). -/
def DEFAULT_REDIRECT : String := "https://blocked.gdistrict.org/Gschool%20block"

/-- The fixed always-allowed domains (`src/ai_routes.py:290`). -/
def allowed_domains : List String := ["blocked.gdistrict.org"]

/-- Effective Global-Block-All flag: the static `blocked` bit of the
"Global Block All" row, replaced by the schedule's activity whenever a
schedule is stored for it (`src/ai_routes.py:241-271`). -/
def globalBlockOn (st : AIState) (now : LocalTime) : Bool :=
  let base := ((st.categories.lookup "Global Block All").map
    (fun r => r.blocked)).getD false
  match st.schedules.lookup "Global Block All" with
  | some s => is_schedule_active s now
  | none => base

/-- Effective blocked flag of a category: the static `blocked` bit
(false when the row is missing), replaced by the schedule's activity when
a schedule is stored for it (`src/ai_routes.py:248-287`). -/
def catBlocked (st : AIState) (now : LocalTime) (cat : String) : Bool :=
  let base := ((st.categories.lookup cat).map (fun r => r.blocked)).getD false
  match st.schedules.lookup cat with
  | some s => is_schedule_active s now
  | none => base

/-- The global-allowlist test of `src/ai_routes.py:293`: some entry of the
allowlist or of the always-allowed domains is a (lowercased) substring of
the raw URL. -/
def urlAllowed (st : AIState) (url : String) : Bool :=
  (st.allowlist ++ allowed_domains).any
    (fun a => strContains (strToLower url) (strToLower a))

/-- Response of the classify endpoint (the fields `api_classify`
returns). -/
structure DecideResp where
  ok : Bool
  url : String
  result : Classifier.Result
  blocked : Bool
  block_url : String
  deriving Repr, DecidableEq

/-- `api_classify` (`src/ai_routes.py:209-317`): classify the URL, then
decide blocking from the Global-Block-All state, the global allowlist and
the per-category flags/schedules. -/
def api_classify (st : AIState) (now : LocalTime) (ex : String → Extract)
    (t : String → String) (fetch : String → String)
    (url : String) (html : Option String) : DecideResp :=
  let result := classify ex t fetch url html
  let default_redirect := st.blocked_redirect.getD DEFAULT_REDIRECT
  let cat_block_url :=
    ((st.categories.lookup result.category).map
      (fun r => r.block_url)).getD none
  if globalBlockOn st now && !urlAllowed st url then
    { ok := true, url := url, result := result, blocked := true
      block_url := default_redirect }
  else
    { ok := true, url := url, result := result
      blocked := catBlocked st now result.category
      block_url :=
        match cat_block_url with
        | some u => if u = "" then default_redirect else u
        | none => default_redirect }

end Routes

namespace AppSrv

/-- The single class policy record `d["classes"]["period1"]`
(`src/app.py:178-189`); `ensure_keys` guarantees the record and all
fields exist, with an absent field equal to its default. -/
structure ClassPolicy where
  name : String
  active : Bool
  focus_mode : Bool
  paused : Bool
  allowlist : List String
  teacher_blocks : List String
  deriving Repr, DecidableEq

/-- A per-student override record (`d["student_overrides"][student]`,
`src/app.py:876-878`): an absent key is `none` and falls through to the
class value. -/
structure Override where
  focus_mode : Option Bool
  paused : Option Bool
  deriving Repr, DecidableEq

/-- The empty override dict `{}`. -/
def Override.empty : Override := ⟨none, none⟩

/-- A scene record (`src/app.py:895-911`): id, `type`
(`"allowed"`/`"blocked"`, the empty string standing for an absent field),
and its allow/block pattern lists.  Scene ids are compared through `str`,
so they are modelled as strings. -/
structure Scene where
  id : String
  type : String
  allow : List String
  block : List String
  deriving Repr, DecidableEq

/-- The scenes file (`_load_scenes`, `src/app.py:236-246`): the two
buckets and the globally current scene pointer; a falsy `current` is
`none`, otherwise the pointer's `id` string. -/
structure SceneStore where
  allowed : List Scene
  blocked : List Scene
  current : Option String
  deriving Repr, DecidableEq

/-- Pending commands are opaque payload dicts to the resolver; the model
carries them as uninterpreted strings. -/
abbrev Cmd := String

/-- The persisted JSON document, restricted to the fields `api_policy`
reads or writes (`ensure_keys` guarantees every top-level key exists). -/
structure AppState where
  cls : ClassPolicy
  student_overrides : List (String × Override)
  pending_per_student : List (String × List Cmd)
  categories : List (String × Bool)
  announcements : String
  blocked_redirect : Option String
  chat_enabled : Bool
  deriving Repr, DecidableEq

/-- Response of `api_policy` (`src/app.py:913-931`). -/
structure PolicyResp where
  blocked_redirect : String
  categories : List (String × Bool)
  focus_mode : Bool
  paused : Bool
  announcement : String
  class_id : String
  class_name : String
  class_active : Bool
  allowlist : List String
  teacher_blocks : List String
  chat_enabled : Bool
  pending : List Cmd
  ts : Int
  scenes_current : Option String
  deriving Repr, DecidableEq

/-- The scene lookup of `src/app.py:895-903`: search the `allowed` bucket
then the `blocked` bucket for the first scene whose id equals the current
pointer's id. -/
def findScene (store : SceneStore) (cid : String) : Option Scene :=
  match store.allowed.find? (fun s => s.id = cid) with
  | some s => some s
  | none => store.blocked.find? (fun s => s.id = cid)

/-- The scene applied by a resolve call, if any: the current pointer
resolved through `findScene`. -/
def appliedScene (store : SceneStore) : Option Scene :=
  match store.current with
  | some cid => findScene store cid
  | none => none

/-- `api_policy` (`src/app.py:864-932`), as a function from the persisted
document, the scenes file, the (stripped) `student` field and the clock to
the response plus the new persisted document.  An empty `student` string
is how the endpoint represents "no student supplied" (`if student` in the
source), so no override lookup and no drain happen for it. -/
def api_policy (d : AppState) (store : SceneStore) (student : String)
    (now : Int) : PolicyResp × AppState :=
  let focus0 := d.cls.focus_mode
  let paused0 := d.cls.paused
  let ov :=
    if student ≠ "" then (d.student_overrides.lookup student).getD Override.empty
    else Override.empty
  let focus1 := ov.focus_mode.getD focus0
  let paused1 := ov.paused.getD paused0
  let pending :=
    if student ≠ "" then (d.pending_per_student.lookup student).getD []
    else []
  let d' :=
    if student ≠ "" ∧ (d.pending_per_student.lookup student).isSome then
      { d with pending_per_student :=
          d.pending_per_student.filter (fun p => p.1 ≠ student) }
    else d
  let allowlist0 := d.cls.allowlist
  let blocks0 := d.cls.teacher_blocks
  let merged :=
    match appliedScene store with
    | some sc =>
      if sc.type = "allowed" then (sc.allow, true, blocks0)
      else if sc.type = "blocked" then
        (allowlist0, focus1, blocks0 ++ sc.block)
      else (allowlist0, focus1, blocks0)
    | none => (allowlist0, focus1, blocks0)
  ({ blocked_redirect :=
       d.blocked_redirect.getD "https://blocked.gdistrict.org/Gschool%20block"
     categories := d.categories
     focus_mode := merged.2.1
     paused := paused1
     announcement := d.announcements
     class_id := "period1"
     class_name := d.cls.name
     class_active := d.cls.active
     allowlist := merged.1
     teacher_blocks := merged.2.2
     chat_enabled := d.chat_enabled
     pending := pending
     ts := now
     scenes_current := store.current }, d')

end AppSrv

namespace Inputs

open Classifier Routes AppSrv

/-! ### Concrete inputs

Concrete oracles and states used to evaluate the embedded code at
specific inputs.  `exOracle` records what `tldextract.extract` returns on
the URLs used below; the identity function serves as the `_textify` core
on bodies that contain no markup, entities, uppercase or extra
whitespace, where the real extraction is the identity. -/

/-- `tldextract.extract` on the concrete URLs used below. -/
def exOracle : String → Extract := fun u =>
  if u = "https://k12.instructure.com/courses/1" then ⟨"k12", "instructure", "com"⟩
  else if u = "https://educate.com" then ⟨"", "educate", "com"⟩
  else if u = "https://good.com" then ⟨"", "good", "com"⟩
  else if u = "https://evil.com" then ⟨"", "evil", "com"⟩
  else if u = "https://zz" then ⟨"", "zz", ""⟩
  else ⟨"", "", ""⟩

/-- A fetch whose response has no text body. -/
def fetchEmpty : String → String := fun _ => ""

/-- A fetch returning a page whose extracted text is `"porn"`. -/
def fetchPorn : String → String := fun _ => "porn"

/-- Wednesday noon, as a `localtime` record. -/
def lt0 : LocalTime := ⟨2, 12, 0⟩

/-- A wrap-past-midnight schedule 22:00–06:00 with no weekday
restriction. -/
def schedWrap : Sched := ⟨true, some "22:00", some "06:00", false⟩

/-- The same wrap window restricted to weekdays. -/
def schedWrapWk : Sched := ⟨true, some "22:00", some "06:00", true⟩

/-- Classify-endpoint state: Global Block All on, "Uncategorized" also
statically blocked, `good.com` on the global allowlist. -/
def st1 : AIState :=
  { allowlist := ["good.com"]
    categories := [("Global Block All", ⟨true, none⟩), ("Uncategorized", ⟨true, none⟩)]
    schedules := []
    blocked_redirect := none }

/-- An allow-only scene. -/
def sceneA : Scene := ⟨"s1", "allowed", ["allowed.example"], []⟩

/-- A block-list scene. -/
def sceneB : Scene := ⟨"s2", "blocked", [], ["blocked.example"]⟩

/-- Scene store with the allow-only scene current. -/
def storeA : SceneStore := ⟨[sceneA], [sceneB], some "s1"⟩

/-- Scene store with the block-list scene current. -/
def storeB : SceneStore := ⟨[sceneA], [sceneB], some "s2"⟩

/-- Scene store with no current scene. -/
def storeNone : SceneStore := ⟨[sceneA], [sceneB], none⟩

/-- Policy document: class with focus and paused both off, one student
with an override and a two-command pending queue. -/
def d0 : AppState :=
  { cls := ⟨"Period 1", true, false, false, ["base.example"], ["tb.example"]⟩
    student_overrides := [("alice", ⟨some false, some true⟩)]
    pending_per_student := [("alice", ["cmd1", "cmd2"])]
    categories := []
    announcements := ""
    blocked_redirect := none
    chat_enabled := false }

/-- Policy document: one student whose override sets only `paused` (no
`focus_mode` key), class-level flags both false. -/
def d1 : AppState :=
  { cls := ⟨"Period 1", true, false, false, [], []⟩
    student_overrides := [("bob", ⟨none, some true⟩)]
    pending_per_student := []
    categories := []
    announcements := ""
    blocked_redirect := none
    chat_enabled := false }

end Inputs

namespace Classifier

/-! ### Helper lemmas about the classifier -/

/-- The left fold behind `maxByFirst` returns its seed or a list member. -/
lemma foldl_max_mem (f : String → Nat) :
    ∀ (l : List String) (a : String),
      l.foldl (fun a x => if f x > f a then x else a) a = a
      ∨ l.foldl (fun a x => if f x > f a then x else a) a ∈ l := by
  intro l
  induction l with
  | nil => intro a; exact Or.inl rfl
  | cons c tl ih =>
    intro a
    simp only [List.foldl]
    rcases ih (if f c > f a then c else a) with h | h
    · by_cases hc : f a < f c
      · rw [if_pos hc] at h ⊢
        rw [h]
        exact Or.inr (List.mem_cons_self c tl)
      · rw [if_neg hc] at h ⊢
        exact Or.inl h
    · exact Or.inr (List.mem_cons_of_mem c h)

/-- `maxByFirst` over a nonempty list returns a member of the list. -/
lemma maxByFirst_mem (f : String → Nat) (c : String) (tl : List String) :
    maxByFirst f (c :: tl) ∈ c :: tl := by
  rcases foldl_max_mem f tl c with h | h
  · simp only [maxByFirst]
    rw [h]
    exact List.mem_cons_self c tl
  · simp only [maxByFirst]
    exact List.mem_cons_of_mem c h

/-- The winning category is always a member of `CATEGORIES`. -/
lemma bestCat_mem (f : String → Nat) : bestCat f ∈ CATEGORIES := by
  unfold bestCat
  by_cases h1 : 0 < f "Allow only"
  · rw [if_pos h1]; decide
  · rw [if_neg h1]
    have hb : maxByFirst f CATEGORIES ∈ CATEGORIES := by
      show maxByFirst f CATEGORIES ∈ CATEGORIES
      have : CATEGORIES = "Advertising" :: CATEGORIES.tail := rfl
      rw [this]
      exact maxByFirst_mem f _ _
    by_cases h2 : f (maxByFirst f CATEGORIES) = 0
    · simp only [h2, if_pos]; decide
    · simp only [if_neg h2]; exact hb

/-- Any single category's score is at most the total score. -/
lemma score_le_total (f : String → Nat) (c : String) (hc : c ∈ CATEGORIES) :
    f c ≤ totalScore f := by
  unfold totalScore
  exact List.single_le_sum (fun x _ => Nat.zero_le x) _
    (List.mem_map_of_mem f hc)

lemma classify_category_eq (ex : String → Extract) (t : String → String)
    (fetch : String → String) (url : String) (html : Option String) :
    (classify ex t fetch url html).category
      = bestCat (scoresFn ex t fetch url html) := rfl

lemma classify_confidence_eq (ex : String → Extract) (t : String → String)
    (fetch : String → String) (url : String) (html : Option String) :
    (classify ex t fetch url html).confidence
      = ((scoresFn ex t fetch url html (bestCat (scoresFn ex t fetch url html)) : ℚ)
          / ((if totalScore (scoresFn ex t fetch url html) = 0 then 1
              else totalScore (scoresFn ex t fetch url html) : ℕ) : ℚ)) := rfl

end Classifier

namespace Claims

open Gschool Classifier

/-- C10: the category returned by `classify` is always one of the fixed
23 `CATEGORIES` names (either "Allow only", "Uncategorized", or the
keyword category chosen by the scoring fold), never an arbitrary string,
so the block-decision lookup of the result category always targets a
seeded name. -/
theorem C10_category_in_enumeration (ex : String → Extract)
    (t : String → String) (fetch : String → String)
    (url : String) (html : Option String) :
    (classify ex t fetch url html).category ∈ CATEGORIES
    ∧ CATEGORIES.length = 23 := by
  refine ⟨?_, rfl⟩
  rw [classify_category_eq]
  exact bestCat_mem _

/-- C3: whenever the "Allow only" score is positive, `classify` returns
the category "Allow only", regardless of the other categories' scores. -/
theorem C3_allow_only_priority (ex : String → Extract)
    (t : String → String) (fetch : String → String)
    (url : String) (html : Option String)
    (h : 0 < scoresFn ex t fetch url html "Allow only") :
    (classify ex t fetch url html).category = "Allow only" := by
  rw [classify_category_eq]
  unfold bestCat
  rw [if_pos h]

/-- C9: the confidence returned by `classify` always lies in `[0, 1]`
(the winner's score is bounded by the total and the denominator is at
least 1), and an input with zero total score yields category
"Uncategorized" with confidence 0. -/
theorem C9_confidence_in_unit_interval (ex : String → Extract)
    (t : String → String) (fetch : String → String)
    (url : String) (html : Option String) :
    (0 ≤ (classify ex t fetch url html).confidence
      ∧ (classify ex t fetch url html).confidence ≤ 1)
    ∧ (totalScore (scoresFn ex t fetch url html) = 0 →
        (classify ex t fetch url html).category = "Uncategorized"
        ∧ (classify ex t fetch url html).confidence = 0) := by
  set f := scoresFn ex t fetch url html with hf
  have hmem : bestCat f ∈ CATEGORIES := bestCat_mem f
  have hle : f (bestCat f) ≤ totalScore f := score_le_total f _ hmem
  have hdenom : f (bestCat f) ≤ (if totalScore f = 0 then 1 else totalScore f) := by
    by_cases h0 : totalScore f = 0
    · rw [if_pos h0]
      exact le_trans (h0 ▸ hle) (by norm_num)
    · rw [if_neg h0]; exact hle
  have hdpos : (0 : ℚ) < ((if totalScore f = 0 then 1 else totalScore f : ℕ) : ℚ) := by
    by_cases h0 : totalScore f = 0
    · rw [if_pos h0]; norm_num
    · rw [if_neg h0]
      exact_mod_cast Nat.pos_of_ne_zero h0
  constructor
  · constructor
    · rw [classify_confidence_eq]
      exact div_nonneg (by exact_mod_cast Nat.zero_le _) hdpos.le
    · rw [classify_confidence_eq]
      rw [div_le_one hdpos]
      exact_mod_cast hdenom
  · intro h0
    have hzero : ∀ c ∈ CATEGORIES, f c = 0 := fun c hc =>
      Nat.le_antisymm (h0 ▸ score_le_total f c hc) (Nat.zero_le _)
    have hao : f "Allow only" = 0 := hzero _ (by decide)
    have hcat : bestCat f = "Uncategorized" := by
      unfold bestCat
      rw [hao]
      simp only [lt_self_iff_false, if_false]
      have hb : f (maxByFirst f CATEGORIES) = 0 := by
        apply hzero
        have : CATEGORIES = "Advertising" :: CATEGORIES.tail := rfl
        rw [this]
        exact maxByFirst_mem f _ _
      rw [if_pos hb]
    refine ⟨by rw [classify_category_eq]; exact hcat, ?_⟩
    rw [classify_confidence_eq]
    rw [← hf, hcat]
    have hu : f "Uncategorized" = 0 := hzero _ (by decide)
    rw [hu, if_pos h0]
    norm_num

end Claims

namespace Gschool

/-- A prefix occurrence is in particular a substring occurrence. -/
lemma infixOf_of_isPrefixOf (p l : List Char) (h : p.isPrefixOf l = true) :
    infixOf p l = true := by
  cases l with
  | nil =>
    cases p with
    | nil => rfl
    | cons c cs => simp [List.isPrefixOf] at h
  | cons c tl =>
    unfold infixOf
    rw [h]
    rfl

/-- Dropping the first character of a pattern preserves substring
occurrence. -/
lemma infixOf_tail (c : Char) (p : List Char) (l : List Char)
    (h : infixOf (c :: p) l = true) : infixOf p l = true := by
  induction l with
  | nil => simp [infixOf, List.isEmpty] at h
  | cons a tl ih =>
    unfold infixOf at h
    rcases Bool.or_eq_true_iff.mp h with h1 | h1
    · simp only [List.isPrefixOf] at h1
      rcases Bool.and_eq_true_iff.mp h1 with ⟨-, h3⟩
      unfold infixOf
      rw [infixOf_of_isPrefixOf p tl h3]
      simp
    · unfold infixOf
      rw [ih h1]
      simp

/-- If a string contains `".edu"` it also contains `"edu"`; hence the
source's disjunction `"edu" in domain or ".edu" in domain` collapses to
the first test. -/
lemma edu_or_dotEdu (d : String) :
    (strContains d "edu" || strContains d ".edu") = strContains d "edu" := by
  cases h : strContains d "edu" with
  | true => simp
  | false =>
    cases h2 : strContains d ".edu" with
    | false => simp
    | true =>
      exfalso
      have : infixOf ('.' :: "edu".data) d.data = true := h2
      have := infixOf_tail '.' "edu".data d.data this
      rw [strContains] at h
      rw [h] at this
      exact Bool.false_ne_true this

end Gschool

namespace Claims

open Gschool Classifier Inputs

/-- C2 (amended): `classify` adds the +3 "General / Education" boost
exactly when the extracted registrable domain contains `"edu"` as a
substring — the source tests `any(s in domain for s in ["edu",".edu"])`,
which is substring containment, not the `.edu` suffix. -/
theorem C2_edu_boost_is_substring (ex : String → Extract)
    (t : String → String) (fetch : String → String)
    (url : String) (html : Option String) :
    scoresFn ex t fetch url html "General / Education"
      = keywordScore (tokensOf ex t fetch url html) "General / Education"
        + (if strContains (domainOf ex url) "edu" then 3 else 0) := by
  unfold scoresFn scoresOf
  rw [edu_or_dotEdu]
  have h1 : (decide (("General / Education" : String) = "General / Education")) = true := by
    decide
  have h2 : (decide (("General / Education" : String) = "Blogs")) = false := by
    decide
  simp [h1, h2]

/-- C2 counterexample: for `https://educate.com` the extracted domain
`educate.com` does not end in `.edu`, no education keyword matches any
token (the keyword part of the score is 0), and yet the education score
is 3 — the +3 boost fired on a domain that merely contains `"edu"`. -/
theorem C2_counterexample :
    strEndsWith "educate.com" ".edu" = false
    ∧ keywordScore (tokensOf exOracle id fetchEmpty "https://educate.com" (some "z"))
        "General / Education" = 0
    ∧ scoresFn exOracle id fetchEmpty "https://educate.com" (some "z")
        "General / Education" = 3 := by
  refine ⟨by decide, by decide, by decide⟩

/-- C3 witness: `https://k12.instructure.com/courses/1` with a body whose
six pornography keywords outscore the five "Allow only" hits still
classifies as "Allow only". -/
theorem C3_witness :
    0 < scoresFn exOracle id fetchEmpty "https://k12.instructure.com/courses/1"
        (some "porn xxx xvideos redtube xnxx brazzers") "Allow only"
    ∧ (classify exOracle id fetchEmpty "https://k12.instructure.com/courses/1"
        (some "porn xxx xvideos redtube xnxx brazzers")).category = "Allow only"
    ∧ scoresFn exOracle id fetchEmpty "https://k12.instructure.com/courses/1"
        (some "porn xxx xvideos redtube xnxx brazzers") "Allow only"
      < scoresFn exOracle id fetchEmpty "https://k12.instructure.com/courses/1"
        (some "porn xxx xvideos redtube xnxx brazzers") "Sexual Content" :=
  ⟨by decide,
   C3_allow_only_priority exOracle id fetchEmpty
     "https://k12.instructure.com/courses/1"
     (some "porn xxx xvideos redtube xnxx brazzers") (by decide),
   by decide⟩

/-- C9 witness: a URL with zero keyword matches anywhere classifies as
"Uncategorized" with confidence 0 (denominator treated as 1). -/
theorem C9_witness :
    totalScore (scoresFn exOracle id fetchEmpty "zz" none) = 0
    ∧ (classify exOracle id fetchEmpty "zz" none).category = "Uncategorized"
    ∧ (classify exOracle id fetchEmpty "zz" none).confidence = 0 := by
  have h0 : totalScore (scoresFn exOracle id fetchEmpty "zz" none) = 0 := by decide
  have h := (C9_confidence_in_unit_interval exOracle id fetchEmpty "zz" none).2 h0
  exact ⟨h0, h.1, h.2⟩

/-- C8 (amended): `classify` is independent of the network fetch — and
hence deterministic, being a pure function of its inputs — whenever the
explicitly supplied html is non-empty; an explicitly supplied *empty*
html string is falsy in the source (`if html`) and still triggers the
fetch. -/
theorem C8_fetch_independence (ex : String → Extract) (t : String → String)
    (f1 f2 : String → String) (url h : String) (hne : h ≠ "") :
    classify ex t f1 url (some h) = classify ex t f2 url (some h) := by
  have htok : tokensOf ex t f1 url (some h) = tokensOf ex t f2 url (some h) := by
    unfold tokensOf
    simp [hne]
  unfold classify
  rw [htok]

/-- C8 counterexample: with the html argument explicitly supplied as the
empty string, the classification still depends on the network fetch — two
fetch behaviours give different categories for the same url+html input. -/
theorem C8_counterexample :
    (classify exOracle id fetchEmpty "https://zz" (some "")).category
      = "Uncategorized"
    ∧ (classify exOracle id fetchPorn "https://zz" (some "")).category
      = "Sexual Content" :=
  ⟨by decide, by decide⟩

/-- C8 witness: fetch-independence at a concrete non-empty html input. -/
theorem C8_witness :
    classify exOracle id fetchEmpty "https://zz" (some "porn")
      = classify exOracle id fetchPorn "https://zz" (some "porn") :=
  C8_fetch_independence exOracle id fetchEmpty fetchPorn "https://zz" "porn"
    (by decide)

end Claims

namespace Claims2

open Gschool Classifier Routes Inputs

/-- C7 (amended): for every enabled schedule whose parsed start minute is
strictly greater than its parsed end minute, at any local time that also
passes the weekday restriction (`weekdays_only` unset, or a Mon–Fri day),
`is_schedule_active` is true exactly when NOT
(end ≤ current-minute-of-day < start). -/
theorem C7_wrap_window_amended (s : Sched) (lt : LocalTime)
    (hen : s.enabled = true)
    (hwk : s.weekdays_only = true → lt.wday < 5)
    (hlt : endMinutes s < startMinutes s) :
    (is_schedule_active s lt = true ↔
      ¬(endMinutes s ≤ curMinutes lt ∧ curMinutes lt < startMinutes s)) := by
  have h2 : (s.weekdays_only && decide (lt.wday ≥ 5)) = false := by
    cases hw : s.weekdays_only with
    | false => rfl
    | true => simp [Nat.not_le.mpr (hwk hw)]
  have h3 : ¬(startMinutes s = endMinutes s) := Nat.ne_of_gt hlt
  have h4 : ¬(startMinutes s < endMinutes s) := Nat.lt_asymm hlt
  unfold is_schedule_active
  simp only [hen, Bool.not_true, Bool.false_eq_true, if_false, h2]
  rw [if_neg h3, if_neg h4]
  simp only [Bool.not_eq_true', Bool.and_eq_false_iff, decide_eq_false_iff_not,
    Nat.not_le, Nat.not_lt, not_and]
  omega

/-- C7 counterexample: the enabled wrap schedule 22:00–06:00 with
`weekdays_only` is inactive on a Saturday at 23:00 even though
NOT (end ≤ 23:00 < start) holds, refuting the claim's biconditional as
stated for every enabled wrap schedule. -/
theorem C7_counterexample :
    schedWrapWk.enabled = true
    ∧ endMinutes schedWrapWk < startMinutes schedWrapWk
    ∧ ¬(endMinutes schedWrapWk ≤ curMinutes ⟨5, 23, 0⟩
        ∧ curMinutes ⟨5, 23, 0⟩ < startMinutes schedWrapWk)
    ∧ is_schedule_active schedWrapWk ⟨5, 23, 0⟩ = false := by
  refine ⟨rfl, by decide, by decide, by decide⟩

/-- C7 witness: for the wrap window 22:00–06:00 without weekday
restriction, the evaluator is active at 23:00 and at 02:00 and inactive
at 12:00. -/
theorem C7_witness :
    is_schedule_active schedWrap ⟨2, 23, 0⟩ = true
    ∧ is_schedule_active schedWrap ⟨2, 2, 0⟩ = true
    ∧ is_schedule_active schedWrap ⟨2, 12, 0⟩ = false := by
  have h23 := C7_wrap_window_amended schedWrap ⟨2, 23, 0⟩ rfl (by decide) (by decide)
  have h02 := C7_wrap_window_amended schedWrap ⟨2, 2, 0⟩ rfl (by decide) (by decide)
  have h12 := C7_wrap_window_amended schedWrap ⟨2, 12, 0⟩ rfl (by decide) (by decide)
  refine ⟨h23.mpr (by decide), h02.mpr (by decide), ?_⟩
  cases hb : is_schedule_active schedWrap ⟨2, 12, 0⟩ with
  | false => rfl
  | true => exact absurd (by decide) (h12.mp hb)

/-- C1 (amended): when Global Block All is effectively active, a URL
matching neither the global allowlist nor the fixed always-allowed
domains is blocked with the default redirect, skipping per-category
evaluation; a URL that does match falls through to the normal
per-category decision, whose (possibly schedule-overridden) blocked flag
then decides the response. -/
theorem C1_global_block_amended (st : AIState) (now : LocalTime)
    (ex : String → Extract) (t : String → String) (fetch : String → String)
    (url : String) (html : Option String)
    (hglob : globalBlockOn st now = true) :
    (urlAllowed st url = false →
      api_classify st now ex t fetch url html =
        { ok := true, url := url, result := classify ex t fetch url html
          blocked := true
          block_url := st.blocked_redirect.getD DEFAULT_REDIRECT })
    ∧ (urlAllowed st url = true →
      (api_classify st now ex t fetch url html).blocked
        = catBlocked st now (classify ex t fetch url html).category) := by
  constructor
  · intro hna
    unfold api_classify
    simp [hglob, hna]
  · intro ha
    unfold api_classify
    simp [hglob, ha]

/-- C1 counterexample: with Global Block All on, `good.com` on the global
allowlist and the "Uncategorized" category statically blocked, the
allowlisted URL `https://good.com` is still blocked by the per-category
flag — so in the active-global state the blocked flag is NOT decided by
the global allowlist check alone. -/
theorem C1_counterexample :
    globalBlockOn st1 lt0 = true
    ∧ urlAllowed st1 "https://good.com" = true
    ∧ (api_classify st1 lt0 exOracle id fetchEmpty
        "https://good.com" (some "z")).blocked = true := by
  refine ⟨by decide, by decide, by decide⟩

/-- C1 witness: a non-allowlisted URL is blocked outright under active
Global Block All, and an allowlisted one falls through to the
per-category decision. -/
theorem C1_witness :
    (api_classify st1 lt0 exOracle id fetchEmpty
      "https://evil.com" (some "z")).blocked = true
    ∧ (api_classify st1 lt0 exOracle id fetchEmpty
        "https://good.com" (some "z")).blocked
      = catBlocked st1 lt0
          (classify exOracle id fetchEmpty "https://good.com" (some "z")).category := by
  constructor
  · have h := (C1_global_block_amended st1 lt0 exOracle id fetchEmpty
      "https://evil.com" (some "z") (by decide)).1 (by decide)
    rw [h]
  · exact (C1_global_block_amended st1 lt0 exOracle id fetchEmpty
      "https://good.com" (some "z") (by decide)).2 (by decide)

end Claims2


namespace Claims3

open Gschool AppSrv Inputs

/-- Looking up a key in an association list from which every entry with
that key has been filtered out yields nothing. -/
lemma lookup_filter_self {β : Type} (l : List (String × β)) (s : String) :
    (l.filter (fun p => p.1 ≠ s)).lookup s = none := by
  induction l with
  | nil => rfl
  | cons p tl ih =>
    obtain ⟨k, v⟩ := p
    by_cases h : k = s
    · have hk : (decide (¬k = s)) = false := by simp [h]
      simp only [List.filter_cons, hk, Bool.false_eq_true, if_false]
      exact ih
    · have hk : (decide (¬k = s)) = true := by simp [h]
      simp only [List.filter_cons, hk, if_true]
      have hbeq : (s == k) = false := beq_false_of_ne fun hs => h hs.symm
      simp only [List.lookup_cons, hbeq]
      exact ih

/-- C4: draining pending commands in resolve is exactly-once per student:
the first resolve call returns the student's queued per-student commands
and removes the queue from the persisted document, so a second resolve
call with no intervening push returns an empty pending list. -/
theorem C4_pending_drain_exactly_once (d : AppState) (store : SceneStore)
    (student : String) (n1 n2 : Int) (hs : student ≠ "") :
    (api_policy d store student n1).1.pending
      = (d.pending_per_student.lookup student).getD []
    ∧ (api_policy d store student n1).2.pending_per_student.lookup student
      = none
    ∧ (api_policy (api_policy d store student n1).2 store student n2).1.pending
      = [] := by
  have hp1 : ∀ (d' : AppState) (n : Int),
      (api_policy d' store student n).1.pending
        = (d'.pending_per_student.lookup student).getD [] := by
    intro d' n
    simp [api_policy, hs]
  have hd : (api_policy d store student n1).2.pending_per_student.lookup student
      = none := by
    by_cases hk : (d.pending_per_student.lookup student).isSome
    · simp only [api_policy]
      simp only [hs, hk, ne_eq, not_false_eq_true, true_and, if_true]
      exact lookup_filter_self d.pending_per_student student
    · simp only [api_policy]
      simp only [hs, hk, ne_eq, not_false_eq_true, true_and, and_false, if_false]
      exact Option.not_isSome_iff_eq_none.mp hk
  refine ⟨hp1 d n1, hd, ?_⟩
  rw [hp1 _ n2, hd]
  rfl

/-- C4 witness: draining student `alice`'s two queued commands. -/
theorem C4_witness :
    (api_policy d0 storeNone "alice" 0).1.pending = ["cmd1", "cmd2"]
    ∧ (api_policy d0 storeNone "alice" 0).2.pending_per_student.lookup "alice"
      = none
    ∧ (api_policy (api_policy d0 storeNone "alice" 0).2 storeNone "alice" 1).1.pending
      = [] := by
  have h := C4_pending_drain_exactly_once d0 storeNone "alice" 0 1 (by decide)
  exact ⟨h.1.trans rfl, h.2.1, h.2.2⟩

/-- C5: when the current scene pointer resolves to a scene of type
`allowed`, the resolved policy's allowlist is exactly that scene's allow
list and focus_mode is forced true; when it resolves to a scene of type
`blocked`, the scene's block patterns are appended to the class
teacher_blocks rather than replacing them. -/
theorem C5_scene_merge (d : AppState) (store : SceneStore) (student : String)
    (now : Int) (sc : Scene) (hsc : appliedScene store = some sc) :
    (sc.type = "allowed" →
      (api_policy d store student now).1.allowlist = sc.allow
      ∧ (api_policy d store student now).1.focus_mode = true)
    ∧ (sc.type = "blocked" →
      (api_policy d store student now).1.teacher_blocks
        = d.cls.teacher_blocks ++ sc.block) := by
  constructor
  · intro hty
    constructor
    · simp [api_policy, hsc, hty]
    · simp [api_policy, hsc, hty]
  · intro hty
    have hne : ¬sc.type = "allowed" := by
      rw [hty]; decide
    simp [api_policy, hsc, hty, hne]

/-- C5 witness: the allow-only scene replaces the allowlist and forces
focus on (even though class focus and the student override are both
false), and the block-list scene appends to the class teacher blocks. -/
theorem C5_witness :
    ((api_policy d0 storeA "alice" 0).1.allowlist = ["allowed.example"]
     ∧ (api_policy d0 storeA "alice" 0).1.focus_mode = true)
    ∧ (api_policy d0 storeB "alice" 0).1.teacher_blocks
      = ["tb.example", "blocked.example"] := by
  have hA := (C5_scene_merge d0 storeA "alice" 0 sceneA rfl).1 rfl
  have hB := (C5_scene_merge d0 storeB "alice" 0 sceneB rfl).2 rfl
  exact ⟨⟨hA.1.trans rfl, hA.2⟩, hB.trans rfl⟩

/-- C6 counterexample: student `bob`'s override has no `focus_mode` key
and the class-level focus_mode is false, yet with an `allowed`-type scene
applied the resolved focus_mode is true — so an absent override key does
not always fall through to the class-level value in the response. -/
theorem C6_counterexample :
    d1.student_overrides.lookup "bob" = some ⟨none, some true⟩
    ∧ d1.cls.focus_mode = false
    ∧ (api_policy d1 storeA "bob" 0).1.focus_mode = true :=
  ⟨rfl, rfl, rfl⟩

/-- C6 (amended): for every non-empty student id, the resolved `paused`
is the override's value when the override sets it and the class-level
value otherwise; the same holds for `focus_mode` provided no
`allowed`-type scene is applied (an applied allow-only scene forces
focus_mode true regardless of override and class values). -/
theorem C6_override_fallthrough_amended (d : AppState) (store : SceneStore)
    (student : String) (now : Int) (hs : student ≠ "") :
    (api_policy d store student now).1.paused
      = ((d.student_overrides.lookup student).getD Override.empty).paused.getD
          d.cls.paused
    ∧ ((appliedScene store).map Scene.type ≠ some "allowed" →
      (api_policy d store student now).1.focus_mode
        = ((d.student_overrides.lookup student).getD Override.empty).focus_mode.getD
            d.cls.focus_mode) := by
  constructor
  · simp [api_policy, hs]
  · intro hna
    cases hap : appliedScene store with
    | none => simp [api_policy, hs, hap]
    | some sc =>
      rw [hap] at hna
      have hne : ¬sc.type = "allowed" := by
        intro he
        exact hna (by simp [he])
      by_cases hb : sc.type = "blocked"
      · simp [api_policy, hs, hap, hne, hb]
      · simp [api_policy, hs, hap, hne, hb]

/-- C6 witness: with no scene applied, override `{paused := true}` wins
over class-level `paused = false`, and the absent `focus_mode` key falls
through to the class-level value. -/
theorem C6_witness :
    (api_policy d1 storeNone "bob" 0).1.paused = true
    ∧ (api_policy d1 storeNone "bob" 0).1.focus_mode = false := by
  have h := C6_override_fallthrough_amended d1 storeNone "bob" 0 (by decide)
  exact ⟨h.1.trans rfl, (h.2 (by decide)).trans rfl⟩

end Claims3
